import Mathlib

/-!
Verification of the Project Lambda rigid-body physics core.

The C++ sources are shallowly embedded here:

* `lambda::core::Real` (src/core/Real.hpp) wraps a finite `double`; NaN and
  infinity are rejected by construction and by every arithmetic operator.
  We model it by `ℚ`: exact arithmetic on finite values.  The finiteness
  checks (`IsValidMass` accepting only positive finite values,
  `IsValidVector3` accepting only finite components) therefore degenerate
  to their exact-arithmetic content.
* `lambda::physics::RigidBody` (src/physics/src/RigidBody.cpp together with
  the member default initializers of
  src/physics/include/lambda/physics/RigidBody.hpp).
* `lambda::physics::PhysicsWorld` (src/physics/src/PhysicsWorld.cpp).
* The colliders (src/physics/src/colliders/SphereCollider.cpp and
  src/physics/src/colliders/AABBCollider.cpp).
-/

namespace Lambda

/-- A triple of rationals, modelling `std::array<lambda::core::Real, 3>`
(and `lambda::core::Vector3`). -/
structure Vec3 where
  x : ℚ
  y : ℚ
  z : ℚ
deriving DecidableEq, Repr

/-- The zero vector `{Real{0.0}, Real{0.0}, Real{0.0}}`. -/
def Vec3.zero : Vec3 := ⟨0, 0, 0⟩

/-- A row-major 3x3 matrix of rationals, modelling
`std::array<lambda::core::Real, 9>` (and `lambda::core::Matrix3`); field
`mRC` is array index `3*R + C`. -/
structure Mat3 where
  m00 : ℚ
  m01 : ℚ
  m02 : ℚ
  m10 : ℚ
  m11 : ℚ
  m12 : ℚ
  m20 : ℚ
  m21 : ℚ
  m22 : ℚ
deriving DecidableEq, Repr

/-- The zero matrix (value-initialized `std::array<Real, 9>`). -/
def Mat3.zero : Mat3 := ⟨0, 0, 0, 0, 0, 0, 0, 0, 0⟩

/-- The identity matrix (used by the repository's tests as `IdentityTensor`). -/
def Mat3.identity : Mat3 := ⟨1, 0, 0, 0, 1, 0, 0, 0, 1⟩

/-- Row-major matrix-vector product.  `Matrix3::operator*(const Vector3&)`
is declared in src/core/Matrix3.hpp; its body is not under src/.
Modelled from the spec: section 4.2 lists the standard matrix-vector
multiply of the row-major `Mat3`.  It is used by `ApplyImpulseAtPoint`
and as the reference full product `α = I⁻¹ · τ` of spec section 4.5. -/
def mat3MulVec (m : Mat3) (v : Vec3) : Vec3 :=
  ⟨m.m00 * v.x + m.m01 * v.y + m.m02 * v.z,
   m.m10 * v.x + m.m11 * v.y + m.m12 * v.z,
   m.m20 * v.x + m.m21 * v.y + m.m22 * v.z⟩

/-- Status codes of src/physics/include/lambda/physics/IRigidBody.hpp
(`RigidBodyStatus`).  `INVALID_ORIENTATION` is the extra status value used
by `RigidBody::SetOrientationMatrix` in src/physics/src/RigidBody.cpp. -/
inductive RigidBodyStatus where
  | OK
  | INVALID_MASS
  | INVALID_POSITION
  | INVALID_VELOCITY
  | INVALID_ORIENTATION
deriving DecidableEq, Repr

/-- `IsValidMass` (IRigidBody.hpp): mass strictly positive (finiteness is
automatic over `ℚ`). -/
def isValidMass (m : ℚ) : Bool := decide (0 < m)

/-- `IsValidVector3` (IRigidBody.hpp): all components finite, which is
always true over `ℚ`. -/
def isValidVector3 (_v : Vec3) : Bool := true

/-- The state of `lambda::physics::RigidBody`: member fields of
src/physics/include/lambda/physics/RigidBody.hpp plus the
`_orientationMatrix` member used by src/physics/src/RigidBody.cpp. -/
structure RigidBody where
  mass : ℚ
  inverseMass : ℚ
  inertiaTensor : Mat3
  inverseInertiaTensor : Mat3
  position : Vec3
  linearVelocity : Vec3
  angularVelocity : Vec3
  forceAccumulator : Vec3
  torqueAccumulator : Vec3
  orientationMatrix : Mat3
deriving DecidableEq, Repr

/-- A default-constructed `RigidBody`: every member is value-initialized
(`{}`), so every scalar is `0.0` (RigidBody.hpp lines 156-168). -/
def defaultRigidBody : RigidBody :=
  { mass := 0
    inverseMass := 0
    inertiaTensor := Mat3.zero
    inverseInertiaTensor := Mat3.zero
    position := Vec3.zero
    linearVelocity := Vec3.zero
    angularVelocity := Vec3.zero
    forceAccumulator := Vec3.zero
    torqueAccumulator := Vec3.zero
    orientationMatrix := Mat3.zero }

namespace RigidBody

/-- `RigidBody::SetMass` (RigidBody.cpp): validates `IsValidMass`, then
stores the mass and derives `_inverseMass = 1 / _mass`. -/
def setMass (b : RigidBody) (m : ℚ) : RigidBodyStatus × RigidBody :=
  if isValidMass m then
    (RigidBodyStatus.OK, { b with mass := m, inverseMass := 1 / m })
  else
    (RigidBodyStatus.INVALID_MASS, b)

/-- `RigidBody::SetPosition` (RigidBody.cpp). -/
def setPosition (b : RigidBody) (p : Vec3) : RigidBodyStatus × RigidBody :=
  if isValidVector3 p then
    (RigidBodyStatus.OK, { b with position := p })
  else
    (RigidBodyStatus.INVALID_POSITION, b)

/-- `RigidBody::SetVelocity` (RigidBody.cpp). -/
def setVelocity (b : RigidBody) (v : Vec3) : RigidBodyStatus × RigidBody :=
  if isValidVector3 v then
    (RigidBodyStatus.OK, { b with linearVelocity := v })
  else
    (RigidBodyStatus.INVALID_VELOCITY, b)

/-- `RigidBody::SetAngularVelocity` (RigidBody.cpp). -/
def setAngularVelocity (b : RigidBody) (w : Vec3) : RigidBodyStatus × RigidBody :=
  if isValidVector3 w then
    (RigidBodyStatus.OK, { b with angularVelocity := w })
  else
    (RigidBodyStatus.INVALID_VELOCITY, b)

/-- `RigidBody::SetOrientationMatrix` (RigidBody.cpp): the finiteness probe
over the nine components always succeeds over `ℚ`. -/
def setOrientationMatrix (b : RigidBody) (r : Mat3) : RigidBodyStatus × RigidBody :=
  (RigidBodyStatus.OK, { b with orientationMatrix := r })

/-- `RigidBody::ComputeInverseInertiaTensor` (RigidBody.cpp): cofactor
inverse of the row-major 3x3 `_inertiaTensor`; a zero determinant makes
`Real{1.0} / det` throw, caught to set the inverse to the zero matrix. -/
def computeInverseInertiaTensor (b : RigidBody) : RigidBody :=
  let m := b.inertiaTensor
  let det := m.m00 * (m.m11 * m.m22 - m.m12 * m.m21) -
             m.m01 * (m.m10 * m.m22 - m.m12 * m.m20) +
             m.m02 * (m.m10 * m.m21 - m.m11 * m.m20)
  if det = 0 then
    { b with inverseInertiaTensor := Mat3.zero }
  else
    let invDet := 1 / det
    { b with inverseInertiaTensor :=
      ⟨(m.m11 * m.m22 - m.m12 * m.m21) * invDet,
       (m.m02 * m.m21 - m.m01 * m.m22) * invDet,
       (m.m01 * m.m12 - m.m02 * m.m11) * invDet,
       (m.m12 * m.m20 - m.m10 * m.m22) * invDet,
       (m.m00 * m.m22 - m.m02 * m.m20) * invDet,
       (m.m02 * m.m10 - m.m00 * m.m12) * invDet,
       (m.m10 * m.m21 - m.m11 * m.m20) * invDet,
       (m.m01 * m.m20 - m.m00 * m.m21) * invDet,
       (m.m00 * m.m11 - m.m01 * m.m10) * invDet⟩ }

/-- `RigidBody::SetInertiaTensor` (RigidBody.cpp): the finiteness probe is
vacuous over `ℚ`; stores the tensor and recomputes its inverse. -/
def setInertiaTensor (b : RigidBody) (t : Mat3) : RigidBodyStatus × RigidBody :=
  (RigidBodyStatus.OK, computeInverseInertiaTensor { b with inertiaTensor := t })

/-- `RigidBody::ApplyForce` (RigidBody.cpp): componentwise addition into
the force accumulator after the `IsValidVector3` check. -/
def applyForce (b : RigidBody) (f : Vec3) : RigidBody :=
  if isValidVector3 f then
    { b with forceAccumulator :=
      ⟨b.forceAccumulator.x + f.x,
       b.forceAccumulator.y + f.y,
       b.forceAccumulator.z + f.z⟩ }
  else
    b

/-- `RigidBody::ApplyTorque` (RigidBody.cpp). -/
def applyTorque (b : RigidBody) (t : Vec3) : RigidBody :=
  if isValidVector3 t then
    { b with torqueAccumulator :=
      ⟨b.torqueAccumulator.x + t.x,
       b.torqueAccumulator.y + t.y,
       b.torqueAccumulator.z + t.z⟩ }
  else
    b

/-- `RigidBody::ApplyImpulse` (RigidBody.cpp): `Δv = J * invMass` added to
the linear velocity. -/
def applyImpulse (b : RigidBody) (j : Vec3) : RigidBody :=
  if isValidVector3 j then
    { b with linearVelocity :=
      ⟨b.linearVelocity.x + j.x * b.inverseMass,
       b.linearVelocity.y + j.y * b.inverseMass,
       b.linearVelocity.z + j.z * b.inverseMass⟩ }
  else
    b

/-- `RigidBody::ApplyImpulseAtPoint` (RigidBody.cpp): linear impulse, then
`Δω = I⁻¹ · (r × J)` with the cross product written out componentwise. -/
def applyImpulseAtPoint (b : RigidBody) (j r : Vec3) : RigidBody :=
  if isValidVector3 j ∧ isValidVector3 r then
    let b1 := b.applyImpulse j
    let torque : Vec3 :=
      ⟨r.y * j.z - r.z * j.y,
       r.z * j.x - r.x * j.z,
       r.x * j.y - r.y * j.x⟩
    let dw := mat3MulVec b1.inverseInertiaTensor torque
    { b1 with angularVelocity :=
      ⟨b1.angularVelocity.x + dw.x,
       b1.angularVelocity.y + dw.y,
       b1.angularVelocity.z + dw.z⟩ }
  else
    b

/-- `RigidBody::ClearAccumulators` (RigidBody.cpp): zero both accumulators. -/
def clearAccumulators (b : RigidBody) : RigidBody :=
  { b with forceAccumulator := Vec3.zero, torqueAccumulator := Vec3.zero }

end RigidBody

/-- `lambda::core::Constants::G = Real{9.80665}` (src/core/Constants.hpp). -/
def G : ℚ := 980665 / 100000

/-- The per-body action of `PhysicsWorld::ApplyGlobalForces`
(PhysicsWorld.cpp): bodies with `GetMass().Value() <= 0.0` are skipped;
otherwise the gravity force `{0 * mass, -G * mass, 0 * mass}` is applied
through `RigidBody::ApplyForce`. -/
def applyGlobalForcesBody (b : RigidBody) : RigidBody :=
  if b.mass ≤ 0 then b
  else b.applyForce ⟨0 * b.mass, -G * b.mass, 0 * b.mass⟩

/-- The angular-velocity clamp of `PhysicsWorld::IntegrateBodies`
(PhysicsWorld.cpp): `(x > c) ? c : ((x < -c) ? -c : x)`. -/
def clampComponent (x c : ℚ) : ℚ :=
  if x > c then c else if x < -c then -c else x

/-- The per-body action of `PhysicsWorld::IntegrateBodies`
(PhysicsWorld.cpp): skip static bodies (`inverseMass == 0`); otherwise
semi-implicit Euler on the linear state, diagonal-only angular
acceleration (inverse-inertia indices 0, 4, 8), the 100 rad/s clamp, and
a final `ClearAccumulators`. -/
def integrateBody (dt : ℚ) (b : RigidBody) : RigidBody :=
  if b.inverseMass = 0 then b
  else
    let accel : Vec3 :=
      ⟨b.forceAccumulator.x * b.inverseMass,
       b.forceAccumulator.y * b.inverseMass,
       b.forceAccumulator.z * b.inverseMass⟩
    let vel : Vec3 :=
      ⟨b.linearVelocity.x + accel.x * dt,
       b.linearVelocity.y + accel.y * dt,
       b.linearVelocity.z + accel.z * dt⟩
    let b1 := (b.setVelocity vel).2
    let pos : Vec3 :=
      ⟨b1.position.x + vel.x * dt,
       b1.position.y + vel.y * dt,
       b1.position.z + vel.z * dt⟩
    let b2 := (b1.setPosition pos).2
    let angularAccel : Vec3 :=
      ⟨b2.torqueAccumulator.x * b2.inverseInertiaTensor.m00,
       b2.torqueAccumulator.y * b2.inverseInertiaTensor.m11,
       b2.torqueAccumulator.z * b2.inverseInertiaTensor.m22⟩
    let angVel : Vec3 :=
      ⟨b2.angularVelocity.x + angularAccel.x * dt,
       b2.angularVelocity.y + angularAccel.y * dt,
       b2.angularVelocity.z + angularAccel.z * dt⟩
    let angVelClamped : Vec3 :=
      ⟨clampComponent angVel.x 100,
       clampComponent angVel.y 100,
       clampComponent angVel.z 100⟩
    let b3 := (b2.setAngularVelocity angVelClamped).2
    b3.clearAccumulators

/-- The state of `lambda::physics::PhysicsWorld` (PhysicsWorld.hpp): the
registered bodies, in insertion order, and the simulation-time
accumulator.  The C++ registry stores non-owning `IRigidBody*`; every
body registered in the claims is a non-null `RigidBody`, and
`AddRigidBody` never stores a null or duplicate pointer, so for the
simulation pipeline the world is faithfully a list of body states acted
on pointwise. -/
structure PhysicsWorld where
  rigidBodies : List RigidBody
  simulationTime : ℚ
deriving DecidableEq, Repr

namespace PhysicsWorld

/-- `PhysicsWorld::ApplyGlobalForces` (PhysicsWorld.cpp): loop over the
registry applying gravity per body. -/
def applyGlobalForces (w : PhysicsWorld) : PhysicsWorld :=
  { w with rigidBodies := w.rigidBodies.map applyGlobalForcesBody }

/-- `PhysicsWorld::IntegrateBodies` (PhysicsWorld.cpp): loop over the
registry integrating each body with the given `dt`. -/
def integrateBodies (dt : ℚ) (w : PhysicsWorld) : PhysicsWorld :=
  { w with rigidBodies := w.rigidBodies.map (integrateBody dt) }

/-- `PhysicsWorld::DetectCollisions` (PhysicsWorld.cpp): placeholder no-op. -/
def detectCollisions (w : PhysicsWorld) : PhysicsWorld := w

/-- `PhysicsWorld::ResolveCollisions` (PhysicsWorld.cpp): placeholder no-op. -/
def resolveCollisions (w : PhysicsWorld) : PhysicsWorld := w

/-- `PhysicsWorld::Simulate(dt)` (PhysicsWorld.cpp): global forces, then
integration with the given `dt`, then the collision stubs, then
`_simulationTime += dt.Value()`. -/
def simulate (dt : ℚ) (w : PhysicsWorld) : PhysicsWorld :=
  let w1 := w.applyGlobalForces
  let w2 := integrateBodies dt w1
  let w3 := w2.detectCollisions
  let w4 := w3.resolveCollisions
  { w4 with simulationTime := w4.simulationTime + dt }

end PhysicsWorld

/-- The combined per-body action of one `Simulate` call: gravity, then
integration. -/
def stepBody (dt : ℚ) (b : RigidBody) : RigidBody :=
  integrateBody dt (applyGlobalForcesBody b)

/-!
Registry bookkeeping.  `PhysicsWorld::AddRigidBody` and friends operate on
`IRigidBody*` pointer identity; we model a pointer as a `ℕ` identifier and
a possibly-null argument as `Option ℕ`.
-/

/-- `PhysicsWorld::AddRigidBody` (PhysicsWorld.cpp): returns `void`;
rejects null and already-registered pointers, otherwise appends. -/
def addRigidBody (reg : List ℕ) (body : Option ℕ) : List ℕ :=
  match body with
  | none => reg
  | some p => if p ∈ reg then reg else reg ++ [p]

/-- `PhysicsWorld::RemoveRigidBody` (PhysicsWorld.cpp): returns `void`;
rejects null; erases the first (only) occurrence when present. -/
def removeRigidBody (reg : List ℕ) (body : Option ℕ) : List ℕ :=
  match body with
  | none => reg
  | some p => reg.erase p

/-- `PhysicsWorld::TryAddRigidBody` (PhysicsWorld.cpp): returns `false`
for null or already-registered pointers without touching the registry,
otherwise appends and returns `true`. -/
def tryAddRigidBody (reg : List ℕ) (body : Option ℕ) : Bool × List ℕ :=
  match body with
  | none => (false, reg)
  | some p => if p ∈ reg then (false, reg) else (true, reg ++ [p])

/-- `PhysicsWorld::TryRemoveRigidBody` (PhysicsWorld.cpp): returns
`false` for null or unregistered pointers without touching the registry,
otherwise erases the occurrence and returns `true`. -/
def tryRemoveRigidBody (reg : List ℕ) (body : Option ℕ) : Bool × List ℕ :=
  match body with
  | none => (false, reg)
  | some p => if p ∈ reg then (true, reg.erase p) else (false, reg)

/-!
Colliders (src/physics/src/colliders/).
-/

/-- `lambda::physics::colliders::SphereCollider` state: center and radius. -/
structure SphereCollider where
  center : Vec3
  radius : ℚ
deriving DecidableEq, Repr

/-- The `SphereCollider` constructor (SphereCollider.cpp): a negative
radius is replaced with zero. -/
def mkSphereCollider (center : Vec3) (radius : ℚ) : SphereCollider :=
  ⟨center, if radius < 0 then 0 else radius⟩

/-- `lambda::physics::colliders::AABBCollider` state: min and max corner. -/
structure AABBCollider where
  minPoint : Vec3
  maxPoint : Vec3
deriving DecidableEq, Repr

/-- The `AABBCollider` constructor (AABBCollider.cpp): per-axis swap so
that the stored min is not larger than the stored max. -/
def mkAABBCollider (minP maxP : Vec3) : AABBCollider :=
  ⟨⟨if minP.x ≤ maxP.x then minP.x else maxP.x,
    if minP.y ≤ maxP.y then minP.y else maxP.y,
    if minP.z ≤ maxP.z then minP.z else maxP.z⟩,
   ⟨if minP.x ≤ maxP.x then maxP.x else minP.x,
    if minP.y ≤ maxP.y then maxP.y else minP.y,
    if minP.z ≤ maxP.z then maxP.z else minP.z⟩⟩

/-- `IntersectsSphereSphere` (SphereCollider.cpp): squared center distance
against squared radius sum. -/
def intersectsSphereSphere (l r : SphereCollider) : Bool :=
  let dx := l.center.x - r.center.x
  let dy := l.center.y - r.center.y
  let dz := l.center.z - r.center.z
  let radiusSum := l.radius + r.radius
  decide (dx * dx + dy * dy + dz * dz ≤ radiusSum * radiusSum)

/-- The per-axis clamp of `IntersectsSphereAABB` (SphereCollider.cpp). -/
def clampToInterval (c lo hi : ℚ) : ℚ :=
  if c < lo then lo else if c > hi then hi else c

/-- `IntersectsSphereAABB` (SphereCollider.cpp): clamp the center into the
box, then compare squared distance with squared radius. -/
def intersectsSphereAABB (s : SphereCollider) (box : AABBCollider) : Bool :=
  let closest : Vec3 :=
    ⟨clampToInterval s.center.x box.minPoint.x box.maxPoint.x,
     clampToInterval s.center.y box.minPoint.y box.maxPoint.y,
     clampToInterval s.center.z box.minPoint.z box.maxPoint.z⟩
  let dx := s.center.x - closest.x
  let dy := s.center.y - closest.y
  let dz := s.center.z - closest.z
  decide (dx * dx + dy * dy + dz * dz ≤ s.radius * s.radius)

/-- The AABB-AABB branch of `AABBCollider::Intersects` (AABBCollider.cpp):
the axis loop returns `false` on the first separated axis, so the result
is the negation of the separated-axis disjunction. -/
def intersectsAABBAABB (a b : AABBCollider) : Bool :=
  decide (¬ ((a.maxPoint.x < b.minPoint.x ∨ a.minPoint.x > b.maxPoint.x) ∨
             (a.maxPoint.y < b.minPoint.y ∨ a.minPoint.y > b.maxPoint.y) ∨
             (a.maxPoint.z < b.minPoint.z ∨ a.minPoint.z > b.maxPoint.z)))

/-- The closed set of collider shapes the dynamic casts of
`SphereCollider::Intersects` and `AABBCollider::Intersects` dispatch on. -/
inductive Collider where
  | sphere (s : SphereCollider)
  | aabb (b : AABBCollider)
deriving DecidableEq, Repr

/-- The virtual `Intersects` dispatch: `SphereCollider::Intersects`
(SphereCollider.cpp) handles sphere-sphere and sphere-AABB;
`AABBCollider::Intersects` (AABBCollider.cpp) handles AABB-AABB and
delegates AABB-sphere back to `sphere->Intersects(*this)`. -/
def Collider.intersects : Collider → Collider → Bool
  | Collider.sphere s, Collider.sphere t => intersectsSphereSphere s t
  | Collider.sphere s, Collider.aabb b => intersectsSphereAABB s b
  | Collider.aabb a, Collider.aabb b => intersectsAABBAABB a b
  | Collider.aabb a, Collider.sphere s => intersectsSphereAABB s a

/-!
Concrete scenario bodies, built through the public mutator API exactly as
the repository's tests build them (src/tests/PhysicsWorldTests.cpp).
-/

/-- The free-fall seed body: mass 1 kg, identity inertia, zero initial
state (spec seed scenario 1, `ConfigureDynamicBody(body, Real{1.0})`).
Lemma `freeFallBody_api` proves this literal is exactly the body built
through `SetMass(1)` and `SetInertiaTensor(identity)`. -/
def freeFallBody : RigidBody :=
  { mass := 1
    inverseMass := 1
    inertiaTensor := Mat3.identity
    inverseInertiaTensor := Mat3.identity
    position := Vec3.zero
    linearVelocity := Vec3.zero
    angularVelocity := Vec3.zero
    forceAccumulator := Vec3.zero
    torqueAccumulator := Vec3.zero
    orientationMatrix := Mat3.zero }

/-- The rotation seed body: mass 2 kg, identity inertia, angular velocity
`(0, 5, 0.5)` rad/s (spec seed scenario 2).  Lemma `spinBody_api` proves
this literal is exactly the body built through the mutators. -/
def spinBody : RigidBody :=
  { mass := 2
    inverseMass := 1 / 2
    inertiaTensor := Mat3.identity
    inverseInertiaTensor := Mat3.identity
    position := Vec3.zero
    linearVelocity := Vec3.zero
    angularVelocity := ⟨0, 5, 1 / 2⟩
    forceAccumulator := Vec3.zero
    torqueAccumulator := Vec3.zero
    orientationMatrix := Mat3.zero }

/-- A dynamic body whose inverse inertia tensor has a nonzero off-diagonal
entry: setting inertia `[[1,1,0],[0,1,0],[0,0,1]]` makes
`ComputeInverseInertiaTensor` derive `I⁻¹ = [[1,-1,0],[0,1,0],[0,0,1]]`,
and a torque `(0,1,0)` is accumulated.  Lemma `offDiagBody_api` proves
this literal is exactly the body built through `SetMass(1)`,
`SetInertiaTensor` and `ApplyTorque`. -/
def offDiagBody : RigidBody :=
  { mass := 1
    inverseMass := 1
    inertiaTensor := ⟨1, 1, 0, 0, 1, 0, 0, 0, 1⟩
    inverseInertiaTensor := ⟨1, -1, 0, 0, 1, 0, 0, 0, 1⟩
    position := Vec3.zero
    linearVelocity := Vec3.zero
    angularVelocity := Vec3.zero
    forceAccumulator := Vec3.zero
    torqueAccumulator := ⟨0, 1, 0⟩
    orientationMatrix := Mat3.zero }

/-- Modelled from the spec (section 4.5): the full-matrix angular update
`ω + (I⁻¹ · τ)·Δt` that the spec prescribes for one integration step. -/
def specAngularUpdate (b : RigidBody) (dt : ℚ) : Vec3 :=
  let alpha := mat3MulVec b.inverseInertiaTensor b.torqueAccumulator
  ⟨b.angularVelocity.x + alpha.x * dt,
   b.angularVelocity.y + alpha.y * dt,
   b.angularVelocity.z + alpha.z * dt⟩

/-- The rigid-body states producible through the public API: a
default-constructed body transformed by any sequence of the mutators of
RigidBody.cpp and of the per-body pipeline actions of PhysicsWorld.cpp. -/
inductive Reachable : RigidBody → Prop where
  | base : Reachable defaultRigidBody
  | setMass (b : RigidBody) (m : ℚ) : Reachable b → Reachable (b.setMass m).2
  | setPosition (b : RigidBody) (p : Vec3) : Reachable b → Reachable (b.setPosition p).2
  | setVelocity (b : RigidBody) (v : Vec3) : Reachable b → Reachable (b.setVelocity v).2
  | setAngularVelocity (b : RigidBody) (w : Vec3) :
      Reachable b → Reachable (b.setAngularVelocity w).2
  | setInertiaTensor (b : RigidBody) (t : Mat3) :
      Reachable b → Reachable (b.setInertiaTensor t).2
  | setOrientationMatrix (b : RigidBody) (r : Mat3) :
      Reachable b → Reachable (b.setOrientationMatrix r).2
  | applyForce (b : RigidBody) (f : Vec3) : Reachable b → Reachable (b.applyForce f)
  | applyTorque (b : RigidBody) (t : Vec3) : Reachable b → Reachable (b.applyTorque t)
  | applyImpulse (b : RigidBody) (j : Vec3) : Reachable b → Reachable (b.applyImpulse j)
  | applyImpulseAtPoint (b : RigidBody) (j r : Vec3) :
      Reachable b → Reachable (b.applyImpulseAtPoint j r)
  | clearAccumulators (b : RigidBody) : Reachable b → Reachable b.clearAccumulators
  | globalForces (b : RigidBody) : Reachable b → Reachable (applyGlobalForcesBody b)
  | integrate (dt : ℚ) (b : RigidBody) : Reachable b → Reachable (integrateBody dt b)

/-!
Helper lemmas.
-/

lemma computeInverseInertiaTensor_mass (b : RigidBody) :
    (b.computeInverseInertiaTensor).mass = b.mass := by
  unfold RigidBody.computeInverseInertiaTensor
  dsimp only
  split <;> rfl

lemma computeInverseInertiaTensor_inverseMass (b : RigidBody) :
    (b.computeInverseInertiaTensor).inverseMass = b.inverseMass := by
  unfold RigidBody.computeInverseInertiaTensor
  dsimp only
  split <;> rfl

lemma applyGlobalForcesBody_mass (b : RigidBody) :
    (applyGlobalForcesBody b).mass = b.mass := by
  unfold applyGlobalForcesBody
  split <;> rfl

lemma applyGlobalForcesBody_inverseMass (b : RigidBody) :
    (applyGlobalForcesBody b).inverseMass = b.inverseMass := by
  unfold applyGlobalForcesBody
  split <;> rfl

lemma applyGlobalForcesBody_orientationMatrix (b : RigidBody) :
    (applyGlobalForcesBody b).orientationMatrix = b.orientationMatrix := by
  unfold applyGlobalForcesBody
  split <;> rfl

/-- For a dynamic body, `integrateBody` is the explicit record update:
semi-implicit Euler on `v` and `x`, diagonal-only angular acceleration,
the clamp, and cleared accumulators. -/
lemma integrateBody_spec (dt : ℚ) (b : RigidBody) (h : ¬ b.inverseMass = 0) :
    integrateBody dt b =
      { b with
        linearVelocity :=
          ⟨b.linearVelocity.x + b.forceAccumulator.x * b.inverseMass * dt,
           b.linearVelocity.y + b.forceAccumulator.y * b.inverseMass * dt,
           b.linearVelocity.z + b.forceAccumulator.z * b.inverseMass * dt⟩
        position :=
          ⟨b.position.x + (b.linearVelocity.x + b.forceAccumulator.x * b.inverseMass * dt) * dt,
           b.position.y + (b.linearVelocity.y + b.forceAccumulator.y * b.inverseMass * dt) * dt,
           b.position.z + (b.linearVelocity.z + b.forceAccumulator.z * b.inverseMass * dt) * dt⟩
        angularVelocity :=
          ⟨clampComponent
             (b.angularVelocity.x + b.torqueAccumulator.x * b.inverseInertiaTensor.m00 * dt) 100,
           clampComponent
             (b.angularVelocity.y + b.torqueAccumulator.y * b.inverseInertiaTensor.m11 * dt) 100,
           clampComponent
             (b.angularVelocity.z + b.torqueAccumulator.z * b.inverseInertiaTensor.m22 * dt) 100⟩
        forceAccumulator := Vec3.zero
        torqueAccumulator := Vec3.zero } := by
  unfold integrateBody
  rw [if_neg h]
  rfl

lemma integrateBody_mass (dt : ℚ) (b : RigidBody) :
    (integrateBody dt b).mass = b.mass := by
  by_cases h : b.inverseMass = 0
  · unfold integrateBody
    rw [if_pos h]
  · rw [integrateBody_spec dt b h]

lemma integrateBody_inverseMass (dt : ℚ) (b : RigidBody) :
    (integrateBody dt b).inverseMass = b.inverseMass := by
  by_cases h : b.inverseMass = 0
  · unfold integrateBody
    rw [if_pos h]
  · rw [integrateBody_spec dt b h]

lemma integrateBody_orientationMatrix (dt : ℚ) (b : RigidBody) :
    (integrateBody dt b).orientationMatrix = b.orientationMatrix := by
  by_cases h : b.inverseMass = 0
  · unfold integrateBody
    rw [if_pos h]
  · rw [integrateBody_spec dt b h]

lemma stepBody_orientationMatrix (dt : ℚ) (b : RigidBody) :
    (stepBody dt b).orientationMatrix = b.orientationMatrix := by
  unfold stepBody
  rw [integrateBody_orientationMatrix, applyGlobalForcesBody_orientationMatrix]

lemma stepBody_inverseMass (dt : ℚ) (b : RigidBody) :
    (stepBody dt b).inverseMass = b.inverseMass := by
  unfold stepBody
  rw [integrateBody_inverseMass, applyGlobalForcesBody_inverseMass]

lemma simulate_rigidBodies (dt : ℚ) (w : PhysicsWorld) :
    (PhysicsWorld.simulate dt w).rigidBodies = w.rigidBodies.map (stepBody dt) := by
  simp [PhysicsWorld.simulate, PhysicsWorld.applyGlobalForces, PhysicsWorld.integrateBodies,
    PhysicsWorld.detectCollisions, PhysicsWorld.resolveCollisions, List.map_map, stepBody,
    Function.comp]

lemma simulate_simulationTime (dt : ℚ) (w : PhysicsWorld) :
    (PhysicsWorld.simulate dt w).simulationTime = w.simulationTime + dt := by
  simp [PhysicsWorld.simulate, PhysicsWorld.applyGlobalForces, PhysicsWorld.integrateBodies,
    PhysicsWorld.detectCollisions, PhysicsWorld.resolveCollisions]

lemma clampComponent_bounds (x : ℚ) : -(100 : ℚ) ≤ clampComponent x 100 ∧ clampComponent x 100 ≤ 100 := by
  unfold clampComponent
  split_ifs with h1 h2 <;> constructor <;> linarith

/-- The class invariant connecting mass and inverse mass: no reachable
body has a zero inverse mass together with a positive mass, because the
only mutator of either field, `SetMass`, validates `mass > 0` and then
stores `invMass = 1/mass`. -/
lemma Reachable.static_mass {b : RigidBody} (hr : Reachable b)
    (h0 : b.inverseMass = 0) : b.mass = 0 := by
  induction hr with
  | base => rfl
  | setMass b m _ ih =>
      unfold RigidBody.setMass at h0 ⊢
      by_cases hm : isValidMass m
      · rw [if_pos hm] at h0 ⊢
        simp only at h0 ⊢
        have hmpos : 0 < m := of_decide_eq_true hm
        exact absurd h0 (one_div_ne_zero (ne_of_gt hmpos))
      · rw [if_neg hm] at h0 ⊢
        exact ih h0
  | setPosition b p _ ih => exact ih h0
  | setVelocity b v _ ih => exact ih h0
  | setAngularVelocity b w _ ih => exact ih h0
  | setInertiaTensor b t _ ih =>
      unfold RigidBody.setInertiaTensor at h0 ⊢
      rw [computeInverseInertiaTensor_inverseMass] at h0
      rw [computeInverseInertiaTensor_mass]
      exact ih h0
  | setOrientationMatrix b r _ ih => exact ih h0
  | applyForce b f _ ih => exact ih h0
  | applyTorque b t _ ih => exact ih h0
  | applyImpulse b j _ ih => exact ih h0
  | applyImpulseAtPoint b j r _ ih => exact ih h0
  | clearAccumulators b _ ih => exact ih h0
  | globalForces b _ ih =>
      rw [applyGlobalForcesBody_inverseMass] at h0
      rw [applyGlobalForcesBody_mass]
      exact ih h0
  | integrate dt b _ ih =>
      rw [integrateBody_inverseMass] at h0
      rw [integrateBody_mass]
      exact ih h0

/-- The free-fall seed literal agrees with the body built through the
mutator API (`SetMass(1)`, then `SetInertiaTensor(identity)`). -/
lemma freeFallBody_api :
    ((defaultRigidBody.setMass 1).2.setInertiaTensor Mat3.identity).2 = freeFallBody := by
  norm_num [RigidBody.setMass, RigidBody.setInertiaTensor,
    RigidBody.computeInverseInertiaTensor, isValidMass, defaultRigidBody, freeFallBody,
    Mat3.identity, Mat3.zero, Vec3.zero]

/-- The rotation seed literal agrees with the body built through the
mutator API (`SetMass(2)`, `SetInertiaTensor(identity)`,
`SetAngularVelocity((0, 5, 0.5))`). -/
lemma spinBody_api :
    (((defaultRigidBody.setMass 2).2.setInertiaTensor Mat3.identity).2.setAngularVelocity
        ⟨0, 5, 1 / 2⟩).2 = spinBody := by
  norm_num [RigidBody.setMass, RigidBody.setInertiaTensor, RigidBody.setAngularVelocity,
    RigidBody.computeInverseInertiaTensor, isValidMass, isValidVector3, defaultRigidBody,
    spinBody, Mat3.identity, Mat3.zero, Vec3.zero]

/-- The off-diagonal-inertia literal agrees with the body built through
the mutator API (`SetMass(1)`, `SetInertiaTensor([[1,1,0],[0,1,0],[0,0,1]])`,
`ApplyTorque((0,1,0))`): in particular `ComputeInverseInertiaTensor`
really derives the inverse with the `-1` off-diagonal entry. -/
lemma offDiagBody_api :
    (((defaultRigidBody.setMass 1).2.setInertiaTensor
        ⟨1, 1, 0, 0, 1, 0, 0, 0, 1⟩).2).applyTorque ⟨0, 1, 0⟩ = offDiagBody := by
  norm_num [RigidBody.setMass, RigidBody.setInertiaTensor, RigidBody.applyTorque,
    RigidBody.computeInverseInertiaTensor, isValidMass, isValidVector3, defaultRigidBody,
    offDiagBody, Mat3.zero, Vec3.zero]

/-- Gravity application on the free-fall body accumulates exactly
`(0, -9.80665, 0)`. -/
lemma applyGlobalForcesBody_freeFallBody :
    applyGlobalForcesBody freeFallBody =
      { freeFallBody with forceAccumulator := ⟨0, -(196133 / 20000), 0⟩ } := by
  norm_num [applyGlobalForcesBody, RigidBody.applyForce, isValidVector3, freeFallBody,
    G, Vec3.zero]

/-- The linear velocity of the free-fall body after one full
`Simulate(1.0)` step: it drops by the whole `9.80665`. -/
lemma stepBody_one_freeFallBody_linearVelocity :
    (stepBody 1 freeFallBody).linearVelocity = ⟨0, -(196133 / 20000), 0⟩ := by
  unfold stepBody
  rw [applyGlobalForcesBody_freeFallBody,
    integrateBody_spec 1 _ (by norm_num [freeFallBody])]
  norm_num [freeFallBody, Vec3.zero]

/-- The angular velocity of the off-diagonal-inertia body after one
`Simulate(1)` step: only the diagonal entries of `I⁻¹` contribute, so
`ω = (0, 1, 0)`. -/
lemma stepBody_one_offDiagBody_angularVelocity :
    (stepBody 1 offDiagBody).angularVelocity = ⟨0, 1, 0⟩ := by
  unfold stepBody
  have hg : applyGlobalForcesBody offDiagBody =
      { offDiagBody with forceAccumulator := ⟨0, -(196133 / 20000), 0⟩ } := by
    norm_num [applyGlobalForcesBody, RigidBody.applyForce, isValidVector3, offDiagBody,
      G, Vec3.zero]
  rw [hg, integrateBody_spec 1 _ (by norm_num [offDiagBody])]
  norm_num [offDiagBody, Vec3.zero, clampComponent]

lemma stepBody_defaultRigidBody (dt : ℚ) : stepBody dt defaultRigidBody = defaultRigidBody := by
  unfold stepBody
  have h1 : applyGlobalForcesBody defaultRigidBody = defaultRigidBody := by decide
  rw [h1]
  unfold integrateBody
  rw [if_pos (show defaultRigidBody.inverseMass = 0 from rfl)]

lemma intersectsSphereSphere_comm (l r : SphereCollider) :
    intersectsSphereSphere l r = intersectsSphereSphere r l := by
  simp only [intersectsSphereSphere]
  rw [decide_eq_decide]
  have e1 : (l.center.x - r.center.x) * (l.center.x - r.center.x) =
      (r.center.x - l.center.x) * (r.center.x - l.center.x) := by ring
  have e2 : (l.center.y - r.center.y) * (l.center.y - r.center.y) =
      (r.center.y - l.center.y) * (r.center.y - l.center.y) := by ring
  have e3 : (l.center.z - r.center.z) * (l.center.z - r.center.z) =
      (r.center.z - l.center.z) * (r.center.z - l.center.z) := by ring
  have e4 : (l.radius + r.radius) * (l.radius + r.radius) =
      (r.radius + l.radius) * (r.radius + l.radius) := by ring
  constructor <;> intro h <;> linarith

lemma intersectsAABBAABB_comm (a b : AABBCollider) :
    intersectsAABBAABB a b = intersectsAABBAABB b a := by
  simp only [intersectsAABBAABB, gt_iff_lt]
  rw [decide_eq_decide]
  constructor <;> intro h <;> tauto

/-!
Claim theorems.
-/

/-- C1, counterexample: `Simulate(1.0)` on one free-falling unit-mass body
does NOT cap the timestep at 0.05: the simulation time advances by the
full second, and `v_y` drops by the full `9.80665`, which is not within
`1e-6` of the claimed `0.49033` drop. -/
theorem simulate_one_second_not_capped_cex :
    (PhysicsWorld.simulate 1 ⟨[freeFallBody], 0⟩).simulationTime = 1 ∧
    (PhysicsWorld.simulate 1 ⟨[freeFallBody], 0⟩).rigidBodies.map RigidBody.linearVelocity =
      [⟨0, -(196133 / 20000), 0⟩] ∧
    freeFallBody.linearVelocity.y = 0 ∧
    ¬ |(-(196133 / 20000 : ℚ)) - 0 - -(49033 / 100000)| ≤ 1 / 1000000 := by
  refine ⟨?_, ?_, rfl, ?_⟩
  · rw [simulate_simulationTime]
    norm_num
  · rw [simulate_rigidBodies]
    simp only [List.map_cons, List.map_nil]
    rw [stepBody_one_freeFallBody_linearVelocity]
  · rw [abs_le]
    norm_num

/-- C1, amended: `Simulate(dt)` uses `dt` unmodified throughout the
pipeline (no 0.05 cap exists): the simulation time advances by exactly
`dt`, every body is stepped with the raw `dt`, and one `Simulate(1.0)`
call on a single free-falling unit-mass dynamic body changes `v_y` by
exactly `-9.80665`. -/
theorem simulate_no_timestep_cap (dt : ℚ) (w : PhysicsWorld) :
    (PhysicsWorld.simulate dt w).simulationTime = w.simulationTime + dt ∧
    (PhysicsWorld.simulate dt w).rigidBodies = w.rigidBodies.map (stepBody dt) ∧
    (PhysicsWorld.simulate 1 ⟨[freeFallBody], 0⟩).rigidBodies.map RigidBody.linearVelocity =
      [⟨0, -(196133 / 20000), 0⟩] :=
  ⟨simulate_simulationTime dt w, simulate_rigidBodies dt w, by
    rw [simulate_rigidBodies]
    simp only [List.map_cons, List.map_nil]
    rw [stepBody_one_freeFallBody_linearVelocity]⟩

/-- C2, counterexample: a dynamic body with nonzero angular velocity has
an UNCHANGED orientation matrix after `Simulate`: the integration step
never writes the orientation. -/
theorem simulate_orientation_unchanged_cex :
    spinBody.inverseMass ≠ 0 ∧ spinBody.angularVelocity ≠ Vec3.zero ∧
    (PhysicsWorld.simulate (5 / 1000) ⟨[spinBody], 0⟩).rigidBodies.map
        RigidBody.orientationMatrix =
      [spinBody.orientationMatrix] := by
  refine ⟨?_, ?_, ?_⟩
  · norm_num [spinBody]
  · norm_num [spinBody, Vec3.zero, Vec3.mk.injEq]
  · rw [simulate_rigidBodies]
    simp [stepBody_orientationMatrix]

/-- C2, amended: `Simulate` leaves every body's orientation matrix
unchanged for every timestep and every world: the integration loop
performs no orientation update (neither `Matrix3::Exp` nor
`Matrix3::Orthonormalize` is invoked by the pipeline). -/
theorem simulate_preserves_orientation (dt : ℚ) (w : PhysicsWorld) :
    (PhysicsWorld.simulate dt w).rigidBodies.map RigidBody.orientationMatrix =
      w.rigidBodies.map RigidBody.orientationMatrix := by
  rw [simulate_rigidBodies, List.map_map]
  exact List.map_congr_left fun b _ => stepBody_orientationMatrix dt b

/-- C3, counterexample: with the inverse inertia tensor
`[[1,-1,0],[0,1,0],[0,0,1]]` (off-diagonal entry `-1`) and accumulated
torque `(0,1,0)`, `Simulate(1)` produces `ω = (0,1,0)` — the diagonal-only
product — while the full matrix product `ω + (I⁻¹·τ)·Δt` of the claim
gives `(-1,1,0)`. -/
theorem integrate_offdiagonal_ignored_cex :
    offDiagBody.inverseInertiaTensor.m01 = -1 ∧
    (PhysicsWorld.simulate 1 ⟨[offDiagBody], 0⟩).rigidBodies.map RigidBody.angularVelocity =
      [⟨0, 1, 0⟩] ∧
    specAngularUpdate offDiagBody 1 = ⟨-1, 1, 0⟩ ∧
    (⟨0, 1, 0⟩ : Vec3) ≠ ⟨-1, 1, 0⟩ := by
  refine ⟨rfl, ?_, ?_, ?_⟩
  · rw [simulate_rigidBodies]
    simp only [List.map_cons, List.map_nil]
    rw [stepBody_one_offDiagBody_angularVelocity]
  · norm_num [specAngularUpdate, mat3MulVec, offDiagBody, Vec3.zero]
  · norm_num [Vec3.mk.injEq]

/-- C3, amended: during integration a dynamic body's angular acceleration
uses only the diagonal entries of the inverse inertia tensor (row-major
indices 0, 4, 8): `α = (τ_x·I⁻¹₀₀, τ_y·I⁻¹₁₁, τ_z·I⁻¹₂₂)`, and `ω`
becomes the componentwise clamp of `ω + α·dt`; off-diagonal entries do
not contribute. -/
theorem integrate_angular_diagonal_only (dt : ℚ) (b : RigidBody)
    (hdyn : ¬ b.inverseMass = 0) :
    (integrateBody dt b).angularVelocity =
      ⟨clampComponent
         (b.angularVelocity.x + b.torqueAccumulator.x * b.inverseInertiaTensor.m00 * dt) 100,
       clampComponent
         (b.angularVelocity.y + b.torqueAccumulator.y * b.inverseInertiaTensor.m11 * dt) 100,
       clampComponent
         (b.angularVelocity.z + b.torqueAccumulator.z * b.inverseInertiaTensor.m22 * dt) 100⟩ := by
  rw [integrateBody_spec dt b hdyn]

/-- Witness for the amended C3 theorem at `offDiagBody`, `dt = 1`. -/
theorem integrate_angular_diagonal_only_witness :
    (integrateBody 1 offDiagBody).angularVelocity =
      ⟨clampComponent
         (offDiagBody.angularVelocity.x +
           offDiagBody.torqueAccumulator.x * offDiagBody.inverseInertiaTensor.m00 * 1) 100,
       clampComponent
         (offDiagBody.angularVelocity.y +
           offDiagBody.torqueAccumulator.y * offDiagBody.inverseInertiaTensor.m11 * 1) 100,
       clampComponent
         (offDiagBody.angularVelocity.z +
           offDiagBody.torqueAccumulator.z * offDiagBody.inverseInertiaTensor.m22 * 1) 100⟩ :=
  integrate_angular_diagonal_only 1 offDiagBody (by norm_num [offDiagBody])

/-- C4: the linear update of integration is semi-implicit Euler: the
velocity becomes `v + (F/mass)·dt` from the accumulated force, and the
position then becomes `x + v_new·dt` using the already-updated velocity. -/
theorem integrate_semi_implicit_euler (dt : ℚ) (b : RigidBody)
    (hdyn : ¬ b.inverseMass = 0) (hm : b.inverseMass = 1 / b.mass) :
    (integrateBody dt b).linearVelocity =
      ⟨b.linearVelocity.x + b.forceAccumulator.x / b.mass * dt,
       b.linearVelocity.y + b.forceAccumulator.y / b.mass * dt,
       b.linearVelocity.z + b.forceAccumulator.z / b.mass * dt⟩ ∧
    (integrateBody dt b).position =
      ⟨b.position.x + (b.linearVelocity.x + b.forceAccumulator.x / b.mass * dt) * dt,
       b.position.y + (b.linearVelocity.y + b.forceAccumulator.y / b.mass * dt) * dt,
       b.position.z + (b.linearVelocity.z + b.forceAccumulator.z / b.mass * dt) * dt⟩ := by
  rw [integrateBody_spec dt b hdyn, hm]
  constructor <;> simp [mul_one_div, div_eq_mul_inv]

/-- Witness for the C4 theorem at `freeFallBody`, `dt = 1`. -/
theorem integrate_semi_implicit_euler_witness :
    (integrateBody 1 freeFallBody).linearVelocity =
      ⟨freeFallBody.linearVelocity.x + freeFallBody.forceAccumulator.x / freeFallBody.mass * 1,
       freeFallBody.linearVelocity.y + freeFallBody.forceAccumulator.y / freeFallBody.mass * 1,
       freeFallBody.linearVelocity.z + freeFallBody.forceAccumulator.z / freeFallBody.mass * 1⟩ ∧
    (integrateBody 1 freeFallBody).position =
      ⟨freeFallBody.position.x +
         (freeFallBody.linearVelocity.x + freeFallBody.forceAccumulator.x / freeFallBody.mass * 1) * 1,
       freeFallBody.position.y +
         (freeFallBody.linearVelocity.y + freeFallBody.forceAccumulator.y / freeFallBody.mass * 1) * 1,
       freeFallBody.position.z +
         (freeFallBody.linearVelocity.z + freeFallBody.forceAccumulator.z / freeFallBody.mass * 1) * 1⟩ :=
  integrate_semi_implicit_euler 1 freeFallBody (by norm_num [freeFallBody])
    (by norm_num [freeFallBody])

/-- C5: after any `Simulate` call, every dynamic body in the world has
every angular-velocity component within `[-100, 100]` rad/s, for any
accumulated torque, inverse inertia tensor, and `dt`. -/
theorem simulate_angular_velocity_clamped (dt : ℚ) (w : PhysicsWorld) (b : RigidBody)
    (hb : b ∈ (PhysicsWorld.simulate dt w).rigidBodies) (hdyn : b.inverseMass ≠ 0) :
    |b.angularVelocity.x| ≤ 100 ∧ |b.angularVelocity.y| ≤ 100 ∧ |b.angularVelocity.z| ≤ 100 := by
  rw [simulate_rigidBodies] at hb
  obtain ⟨a, _, rfl⟩ := List.mem_map.mp hb
  rw [stepBody_inverseMass] at hdyn
  have h : ¬ (applyGlobalForcesBody a).inverseMass = 0 := by
    rw [applyGlobalForcesBody_inverseMass]
    exact hdyn
  show |(stepBody dt a).angularVelocity.x| ≤ 100 ∧ _ ∧ _
  unfold stepBody
  rw [integrateBody_spec dt _ h]
  exact ⟨abs_le.mpr ⟨(clampComponent_bounds _).1, (clampComponent_bounds _).2⟩,
         abs_le.mpr ⟨(clampComponent_bounds _).1, (clampComponent_bounds _).2⟩,
         abs_le.mpr ⟨(clampComponent_bounds _).1, (clampComponent_bounds _).2⟩⟩

/-- Witness for the C5 theorem: the body produced by stepping
`freeFallBody` through `Simulate(1)`. -/
theorem simulate_angular_velocity_clamped_witness :
    |(stepBody 1 freeFallBody).angularVelocity.x| ≤ 100 ∧
    |(stepBody 1 freeFallBody).angularVelocity.y| ≤ 100 ∧
    |(stepBody 1 freeFallBody).angularVelocity.z| ≤ 100 :=
  simulate_angular_velocity_clamped 1 ⟨[freeFallBody], 0⟩ (stepBody 1 freeFallBody)
    (by rw [simulate_rigidBodies]; simp)
    (by rw [stepBody_inverseMass]; norm_num [freeFallBody])

/-- C6: a registered body with zero inverse mass (static body, which by
the class invariant of `SetMass` also has mass ≤ 0) is skipped by
global-force application and by integration, so any `Simulate` call
leaves its entire state — position, velocities, orientation,
accumulators — unchanged. -/
theorem simulate_static_body_unchanged (dt : ℚ) (b : RigidBody)
    (hr : Reachable b) (h0 : b.inverseMass = 0) :
    applyGlobalForcesBody b = b ∧ integrateBody dt b = b ∧
    ∀ (w : PhysicsWorld) (i : ℕ), w.rigidBodies[i]? = some b →
      (PhysicsWorld.simulate dt w).rigidBodies[i]? = some b := by
  have hm : b.mass = 0 := hr.static_mass h0
  have hg : applyGlobalForcesBody b = b := by
    unfold applyGlobalForcesBody
    rw [if_pos (le_of_eq hm)]
  have hi : integrateBody dt b = b := by
    unfold integrateBody
    rw [if_pos h0]
  refine ⟨hg, hi, ?_⟩
  intro w i hwi
  rw [simulate_rigidBodies, List.getElem?_map, hwi]
  simp [stepBody, hg, hi]

/-- Witness for the C6 theorem at the default-constructed body. -/
theorem simulate_static_body_unchanged_witness :
    applyGlobalForcesBody defaultRigidBody = defaultRigidBody ∧
    integrateBody 1 defaultRigidBody = defaultRigidBody ∧
    (PhysicsWorld.simulate 1 ⟨[defaultRigidBody], 0⟩).rigidBodies[0]? =
      some defaultRigidBody := by
  have h := simulate_static_body_unchanged 1 defaultRigidBody Reachable.base rfl
  exact ⟨h.1, h.2.1, h.2.2 ⟨[defaultRigidBody], 0⟩ 0 (by decide)⟩

/-- C7: after any `Simulate` call, every dynamic body's force and torque
accumulators are the zero vector, regardless of the forces and torques
applied before the call. -/
theorem simulate_clears_accumulators (dt : ℚ) (w : PhysicsWorld) (b : RigidBody)
    (hb : b ∈ (PhysicsWorld.simulate dt w).rigidBodies) (hdyn : b.inverseMass ≠ 0) :
    b.forceAccumulator = Vec3.zero ∧ b.torqueAccumulator = Vec3.zero := by
  rw [simulate_rigidBodies] at hb
  obtain ⟨a, _, rfl⟩ := List.mem_map.mp hb
  rw [stepBody_inverseMass] at hdyn
  have h : ¬ (applyGlobalForcesBody a).inverseMass = 0 := by
    rw [applyGlobalForcesBody_inverseMass]
    exact hdyn
  show (stepBody dt a).forceAccumulator = Vec3.zero ∧ _
  unfold stepBody
  rw [integrateBody_spec dt _ h]
  exact ⟨rfl, rfl⟩

/-- Witness for the C7 theorem: the body produced by stepping
`spinBody` through `Simulate(1)`. -/
theorem simulate_clears_accumulators_witness :
    (stepBody 1 spinBody).forceAccumulator = Vec3.zero ∧
    (stepBody 1 spinBody).torqueAccumulator = Vec3.zero :=
  simulate_clears_accumulators 1 ⟨[spinBody], 0⟩ (stepBody 1 spinBody)
    (by rw [simulate_rigidBodies]; simp)
    (by rw [stepBody_inverseMass]; norm_num [spinBody])

/-- C8: the bool-returning registration operations
(`TryAddRigidBody` / `TryRemoveRigidBody`, the snapshot's names for the
add/remove operations with the claimed return protocol): adding null or
an already-registered pointer returns false and leaves the registry
unchanged, otherwise the pointer is appended and true is returned;
removing null or an unregistered pointer returns false and leaves the
registry unchanged, otherwise the pointer is removed and true is
returned.  The void `AddRigidBody` / `RemoveRigidBody` entry points have
the same registry effect. -/
theorem registry_add_remove_protocol (reg : List ℕ) (p : ℕ) :
    tryAddRigidBody reg none = (false, reg) ∧
    (p ∈ reg → tryAddRigidBody reg (some p) = (false, reg)) ∧
    (p ∉ reg → tryAddRigidBody reg (some p) = (true, reg ++ [p])) ∧
    tryRemoveRigidBody reg none = (false, reg) ∧
    (p ∉ reg → tryRemoveRigidBody reg (some p) = (false, reg)) ∧
    (p ∈ reg → tryRemoveRigidBody reg (some p) = (true, reg.erase p)) ∧
    addRigidBody reg none = reg ∧
    addRigidBody reg (some p) = (tryAddRigidBody reg (some p)).2 ∧
    removeRigidBody reg (some p) = (tryRemoveRigidBody reg (some p)).2 := by
  refine ⟨rfl, ?_, ?_, rfl, ?_, ?_, rfl, ?_, ?_⟩
  · intro h
    simp [tryAddRigidBody, h]
  · intro h
    simp [tryAddRigidBody, h]
  · intro h
    simp [tryRemoveRigidBody, h]
  · intro h
    simp [tryRemoveRigidBody, h]
  · by_cases h : p ∈ reg <;> simp [addRigidBody, tryAddRigidBody, h]
  · by_cases h : p ∈ reg <;>
      simp [removeRigidBody, tryRemoveRigidBody, h, List.erase_of_not_mem]

/-- Witness for the C8 theorem on concrete registries. -/
theorem registry_add_remove_protocol_witness :
    tryAddRigidBody [7] (some 7) = (false, [7]) ∧
    tryAddRigidBody [] (some 7) = (true, [7]) ∧
    tryRemoveRigidBody [] (some 7) = (false, []) ∧
    tryRemoveRigidBody [7] (some 7) = (true, []) :=
  ⟨(registry_add_remove_protocol [7] 7).2.1 (by decide),
   (registry_add_remove_protocol [] 7).2.2.1 (by decide),
   (registry_add_remove_protocol [] 7).2.2.2.2.1 (by decide),
   (registry_add_remove_protocol [7] 7).2.2.2.2.2.1 (by decide)⟩

/-- C9: `Intersects` is symmetric over every pair drawn from
sphere and AABB colliders: sphere-sphere, AABB-AABB, and the mixed pair
give the same result in both call orders. -/
theorem collider_intersects_symm (a b : Collider) :
    Collider.intersects a b = Collider.intersects b a := by
  cases a with
  | sphere s =>
      cases b with
      | sphere t => exact intersectsSphereSphere_comm s t
      | aabb bb => rfl
  | aabb aa =>
      cases b with
      | sphere t => rfl
      | aabb bb => exact intersectsAABBAABB_comm aa bb

/-- C10: a default-constructed `RigidBody` has mass 0 and inverse mass 0
and is static: once registered, any number of `Simulate` calls leaves it
exactly equal to the default body. -/
theorem default_body_static_forever (dt : ℚ) (n : ℕ) (w : PhysicsWorld) (i : ℕ)
    (hwi : w.rigidBodies[i]? = some defaultRigidBody) :
    defaultRigidBody.mass = 0 ∧ defaultRigidBody.inverseMass = 0 ∧
    ((PhysicsWorld.simulate dt)^[n] w).rigidBodies[i]? = some defaultRigidBody := by
  refine ⟨rfl, rfl, ?_⟩
  induction n generalizing w with
  | zero => simpa using hwi
  | succ k ih =>
      rw [Function.iterate_succ_apply]
      apply ih
      rw [simulate_rigidBodies, List.getElem?_map, hwi]
      simp [stepBody_defaultRigidBody]

/-- Witness for the C10 theorem: two `Simulate(1)` calls on a world
holding only the default body. -/
theorem default_body_static_forever_witness :
    defaultRigidBody.mass = 0 ∧ defaultRigidBody.inverseMass = 0 ∧
    ((PhysicsWorld.simulate 1)^[2] ⟨[defaultRigidBody], 0⟩).rigidBodies[0]? =
      some defaultRigidBody :=
  default_body_static_forever 1 2 ⟨[defaultRigidBody], 0⟩ 0 (by decide)

end Lambda
